import Mathlib

set_option maxRecDepth 8000

/-!
Verification of the `ata_id` probe tool (`src/udev/ata_id/ata_id.c`).

The development shallowly embeds the C program:

* the two IDENTIFY-class pass-through commands (`disk_identify_command`,
  `disk_identify_packet_device_command`) are modelled as functions of an
  explicit submission environment (`SgEnv`) describing what the two `SG_IO`
  ioctl generations and the returned 32-byte sense buffer did;
* the probe sequencer `disk_identify` is modelled as a function of a
  `ProbeEnv` describing the device's responses; it additionally records a
  trace of the transport attempts it makes together with the contents of
  the transfer buffer handed to each attempt;
* the ATA string word-swap loop `disk_identify_get_string` is modelled with
  its exact `size_t` (64-bit wrapping) counter semantics;
* the export-mode classifier of `main` is modelled as a pure function
  `ata_export` from the decoded `hd_driveid` fields and the 256 identify
  words to the list of emitted `KEY=VALUE` lines.

Machine integers are modelled as `Nat` with explicit `% 2 ^ 64` where the C
code can wrap; byte buffers are `List Nat`.
-/

/-- The errno value `EINVAL` (22): the v4 `SG_IO` ioctl reports this when the
driver does not speak the version-4 interface, triggering the v3 fallback. -/
def einvalCode : Nat := 22

/-- The errno value `EIO` (5), used by the C code for device-reported
failures. -/
def eioCode : Nat := 5

/-- Result of one C helper that returns `0` on success and nonzero with
`errno` set on failure. `failure e` records the errno value `e`. -/
inductive CmdResult where
  | success : CmdResult
  | failure (errno : Nat) : CmdResult
deriving DecidableEq, Repr

/-- Environment of one pass-through command submission: what the v4 ioctl
returned (`v4Ret`, with `v4Errno` when nonzero), what the v3 ioctl returned
if attempted (`v3Ret`/`v3Errno`), and the contents of the 32-byte `sense`
buffer after the submission (the buffer is declared zero-initialized in the
C code and filled by the kernel). -/
structure SgEnv where
  v4Ret : Int
  v4Errno : Nat
  v3Ret : Int
  v3Errno : Nat
  sense : List Nat
deriving DecidableEq

/-- Sense acceptance test of `disk_identify_command` (ata_id.c lines
165-166): descriptor-format sense (`sense[0]==0x72` and, via
`desc = sense + 8`, `desc[0]==0x9`, `desc[1]==0x0c`) or fixed-format sense
(`sense[0]==0x70`, `sense[12]==0x00`, `sense[13]==0x1d`). -/
def identify_sense_ok (sense : List Nat) : Bool :=
  (sense.getD 0 0 == 0x72 && sense.getD 8 0 == 0x9 && sense.getD 9 0 == 0x0c) ||
  (sense.getD 0 0 == 0x70 && sense.getD 12 0 == 0x00 && sense.getD 13 0 == 0x1d)

/-- Sense acceptance test of `disk_identify_packet_device_command` (ata_id.c
line 243): only the descriptor-format encoding is accepted. -/
def packet_sense_ok (sense : List Nat) : Bool :=
  sense.getD 0 0 == 0x72 && sense.getD 8 0 == 0x9 && sense.getD 9 0 == 0x0c

/-- `disk_identify_command` (ata_id.c lines 102-172): submit the 12-byte ATA
pass-through IDENTIFY DEVICE command via the v4 ioctl, fall back to the v3
ioctl when the v4 one fails with `EINVAL`, and then — even when the ioctl
succeeded — declare success only if the sense data matches
`identify_sense_ok`, failing with `EIO` otherwise. -/
def disk_identify_command (env : SgEnv) : CmdResult :=
  if env.v4Ret ≠ 0 then
    if env.v4Errno = einvalCode then
      if env.v3Ret ≠ 0 then CmdResult.failure env.v3Errno
      else if identify_sense_ok env.sense then CmdResult.success
      else CmdResult.failure eioCode
    else CmdResult.failure env.v4Errno
  else if identify_sense_ok env.sense then CmdResult.success
  else CmdResult.failure eioCode

/-- `disk_identify_packet_device_command` (ata_id.c lines 174-249): the
16-byte ATA pass-through IDENTIFY PACKET DEVICE command; identical ioctl
fallback structure, but only the descriptor-format sense is accepted. -/
def disk_identify_packet_device_command (env : SgEnv) : CmdResult :=
  if env.v4Ret ≠ 0 then
    if env.v4Errno = einvalCode then
      if env.v3Ret ≠ 0 then CmdResult.failure env.v3Errno
      else if packet_sense_ok env.sense then CmdResult.success
      else CmdResult.failure eioCode
    else CmdResult.failure env.v4Errno
  else if packet_sense_ok env.sense then CmdResult.success
  else CmdResult.failure eioCode

/-- One transport attempt recorded by the probe sequencer, carrying the
contents of the caller-owned transfer buffer at the moment the command is
submitted. -/
inductive Attempt where
  | inquiry (buf : List Nat) : Attempt
  | identifyAta (buf : List Nat) : Attempt
  | identifyPacket (buf : List Nat) : Attempt
deriving DecidableEq

/-- Environment of one whole probe (`disk_identify`): the outcome of the
INQUIRY command, the contents of `inquiry_buf` after that attempt, the stale
stack contents `inquiry_buf` holds before the attempt (the C code declares
`uint8_t inquiry_buf[36];` without an initializer), and for each IDENTIFY
variant its submission environment plus the contents of `out_identify`
after the attempt. -/
structure ProbeEnv where
  inquiryResult : CmdResult
  inquiryData : List Nat
  staleInquiry : List Nat
  ataEnv : SgEnv
  ataData : List Nat
  packetEnv : SgEnv
  packetData : List Nat

/-- Result of `disk_identify`: the returned status, the final contents of
`out_identify`, the `*out_is_packet_device` flag, and the trace of transport
attempts made. -/
structure IdentifyResult where
  ret : CmdResult
  out : List Nat
  isPacket : Bool
  trace : List Attempt
deriving DecidableEq

/-- The `check_nul_bytes` tail of `disk_identify` (ata_id.c lines 368-382):
if the 512-byte identify block is all NUL bytes, the result becomes
`-1`/`EIO` regardless of the command's own status; otherwise the command's
status is kept. -/
def check_nul_bytes (ret : CmdResult) (out : List Nat) (isPkt : Bool)
    (tr : List Attempt) : IdentifyResult :=
  if out.all (fun b => b == 0) then ⟨CmdResult.failure eioCode, out, isPkt, tr⟩
  else ⟨ret, out, isPkt, tr⟩

/-- The peripheral device type of `disk_identify` (ata_id.c line 350): the
low 5 bits (`& 0x1f`) of the first INQUIRY response byte. -/
def peripheral_device_type (inquiry_buf : List Nat) : Nat :=
  inquiry_buf.getD 0 0 % 32

/-- `disk_identify` (ata_id.c lines 311-388): zero `out_identify`, issue the
INQUIRY (whose failure is terminal), extract the peripheral device type from
the low 5 bits of the first INQUIRY response byte, route to IDENTIFY PACKET
DEVICE (type `0x05`), to IDENTIFY DEVICE (types `0x00`/`0x14`), or fail with
`EIO`, and finally reject an all-NUL identify block. The trace records each
transport attempt with the transfer-buffer contents passed to it: the
INQUIRY gets the uninitialized `inquiry_buf` stack contents, the IDENTIFY
variants get the zeroed `out_identify`. -/
def disk_identify (env : ProbeEnv) : IdentifyResult :=
  let out0 : List Nat := List.replicate 512 0
  let tr0 : List Attempt := [Attempt.inquiry env.staleInquiry]
  match env.inquiryResult with
  | CmdResult.failure e => ⟨CmdResult.failure e, out0, false, tr0⟩
  | CmdResult.success =>
    let pdt : Nat := peripheral_device_type env.inquiryData
    if pdt = 0x05 then
      check_nul_bytes (disk_identify_packet_device_command env.packetEnv)
        env.packetData true (tr0 ++ [Attempt.identifyPacket out0])
    else if ¬ (pdt = 0x00 ∨ pdt = 0x14) then
      ⟨CmdResult.failure eioCode, out0, false, tr0⟩
    else
      match disk_identify_command env.ataEnv with
      | CmdResult.failure e =>
        ⟨CmdResult.failure e, env.ataData, false, tr0 ++ [Attempt.identifyAta out0]⟩
      | CmdResult.success =>
        check_nul_bytes CmdResult.success env.ataData false
          (tr0 ++ [Attempt.identifyAta out0])

/-- Which source `main` uses for the `hd_driveid` data (ata_id.c lines
448-482): the pass-through result when `disk_identify` returned 0, the
legacy `HDIO_GET_IDENTITY` fallback otherwise. -/
inductive IdSource where
  | passthrough : IdSource
  | legacy : IdSource
deriving DecidableEq

/-- The fallback decision of `main`: legacy `HDIO_GET_IDENTITY` is attempted
exactly when `disk_identify` failed. -/
def main_id_source (env : ProbeEnv) : IdSource :=
  if (disk_identify env).ret = CmdResult.success then IdSource.passthrough
  else IdSource.legacy

/-- True when the trace contains an IDENTIFY-class transport attempt. -/
def identifyIssued (tr : List Attempt) : Bool :=
  tr.any fun a =>
    match a with
    | Attempt.identifyAta _ => true
    | Attempt.identifyPacket _ => true
    | Attempt.inquiry _ => false

/-- The transfer buffer recorded with a transport attempt. -/
def attemptBuf : Attempt → List Nat
  | Attempt.inquiry b => b
  | Attempt.identifyAta b => b
  | Attempt.identifyPacket b => b

/-- The word-swapped copy loop of `disk_identify_get_string` (ata_id.c lines
260-279) with its exact `size_t` semantics: while `dest_len > 0`, emit the
two bytes of the current identify word in swapped order
(`identify[offset_words*2+1]` first, then `identify[offset_words*2]`),
advance `offset_words`, and decrement the 64-bit unsigned counter by 2
(wrapping modulo `2 ^ 64`). `fuel` bounds the number of iterations the model
unfolds; `none` means the loop has not exited within `fuel` iterations. -/
def getStringRun (identify : Nat → Nat) :
    Nat → Nat → Nat → List Nat → Option (List Nat)
  | 0, _, _, _ => none
  | fuel + 1, offset_words, dest_len, acc =>
    if dest_len = 0 then some acc
    else
      getStringRun identify fuel (offset_words + 1)
        ((dest_len + (2 ^ 64 - 2)) % 2 ^ 64)
        (acc ++ [identify (offset_words * 2 + 1), identify (offset_words * 2)])

/-- The byte-pair transform performed by the body of
`disk_identify_get_string`: each adjacent byte pair of the source range is
emitted in swapped order (pair-second byte first). -/
def wordSwapBytes : List Nat → List Nat
  | b0 :: b1 :: rest => b1 :: b0 :: wordSwapBytes rest
  | l => l

/-- The `2 * k` consecutive identify bytes starting at word offset
`offset_words`, in buffer order. -/
def rangeBytes (identify : Nat → Nat) : Nat → Nat → List Nat
  | _, 0 => []
  | offset_words, k + 1 =>
    identify (offset_words * 2) :: identify (offset_words * 2 + 1) ::
      rangeBytes identify (offset_words + 1) k

/-- The `(offset_words, dest_len)` arguments of the three
`disk_identify_fixup_string` calls in `main` (ata_id.c lines 453-455):
serial, firmware revision, model. `disk_identify_fixup_string` passes its
length argument through to `disk_identify_get_string` unchanged. -/
def main_fixup_string_calls : List (Nat × Nat) := [(10, 20), (23, 8), (27, 40)]

theorem wordSwapBytes_involutive : ∀ l : List Nat,
    wordSwapBytes (wordSwapBytes l) = l
  | [] => rfl
  | [a] => rfl
  | a :: b :: rest => by
    rw [wordSwapBytes, wordSwapBytes, wordSwapBytes_involutive rest]

theorem wordSwapBytes_length : ∀ l : List Nat,
    (wordSwapBytes l).length = l.length
  | [] => rfl
  | [a] => rfl
  | a :: b :: rest => by
    rw [wordSwapBytes]
    simp [wordSwapBytes_length rest]

theorem rangeBytes_length (identify : Nat → Nat) :
    ∀ k off, (rangeBytes identify off k).length = 2 * k
  | 0, _ => rfl
  | k + 1, off => by
    rw [rangeBytes]
    simp [rangeBytes_length identify k (off + 1)]
    omega

theorem getStringRun_even (identify : Nat → Nat) :
    ∀ k off acc, 2 * k < 2 ^ 64 →
      getStringRun identify (k + 1) off (2 * k) acc =
        some (acc ++ wordSwapBytes (rangeBytes identify off k))
  | 0, off, acc, _ => by
    simp [getStringRun, rangeBytes, wordSwapBytes]
  | k + 1, off, acc, h => by
    have h2 : 2 * (k + 1) ≠ 0 := by omega
    have hs : (2 * (k + 1) + (2 ^ 64 - 2)) % 2 ^ 64 = 2 * k := by
      have h64 : (2 : Nat) ^ 64 = 18446744073709551616 := by norm_num
      rw [h64] at h ⊢
      omega
    rw [getStringRun, if_neg h2, hs,
      getStringRun_even identify k (off + 1)
        (acc ++ [identify (off * 2 + 1), identify (off * 2)]) (by omega)]
    rw [rangeBytes, wordSwapBytes]
    simp

theorem getStringRun_odd (identify : Nat → Nat) :
    ∀ fuel off dest_len acc, dest_len % 2 = 1 →
      getStringRun identify fuel off dest_len acc = none
  | 0, _, _, _, _ => rfl
  | fuel + 1, off, dest_len, acc, h => by
    have h0 : dest_len ≠ 0 := by omega
    have hs : ((dest_len + (2 ^ 64 - 2)) % 2 ^ 64) % 2 = 1 := by
      have h64 : (2 : Nat) ^ 64 = 18446744073709551616 := by norm_num
      rw [h64]
      omega
    rw [getStringRun, if_neg h0,
      getStringRun_odd identify fuel (off + 1) _ _ hs]

/-- The stable key vocabulary of the export-mode `KEY=VALUE` lines emitted
by `main` (constructor names are the exact C key strings). -/
inductive Key where
  | ID_ATA
  | ID_BUS
  | ID_MODEL
  | ID_MODEL_ENC
  | ID_REVISION
  | ID_SERIAL
  | ID_SERIAL_SHORT
  | ID_ATA_WRITE_CACHE
  | ID_ATA_WRITE_CACHE_ENABLED
  | ID_ATA_FEATURE_SET_HPA
  | ID_ATA_FEATURE_SET_HPA_ENABLED
  | ID_ATA_FEATURE_SET_PM
  | ID_ATA_FEATURE_SET_PM_ENABLED
  | ID_ATA_FEATURE_SET_SECURITY
  | ID_ATA_FEATURE_SET_SECURITY_ENABLED
  | ID_ATA_FEATURE_SET_SECURITY_ERASE_UNIT_MIN
  | ID_ATA_FEATURE_SET_SECURITY_ENHANCED_ERASE_UNIT_MIN
  | ID_ATA_FEATURE_SET_SECURITY_EXPIRE
  | ID_ATA_FEATURE_SET_SECURITY_FROZEN
  | ID_ATA_FEATURE_SET_SECURITY_LOCKED
  | ID_ATA_FEATURE_SET_SMART
  | ID_ATA_FEATURE_SET_SMART_ENABLED
  | ID_ATA_FEATURE_SET_AAM
  | ID_ATA_FEATURE_SET_AAM_ENABLED
  | ID_ATA_FEATURE_SET_AAM_VENDOR_RECOMMENDED_VALUE
  | ID_ATA_FEATURE_SET_AAM_CURRENT_VALUE
  | ID_ATA_FEATURE_SET_PUIS
  | ID_ATA_FEATURE_SET_PUIS_ENABLED
  | ID_ATA_FEATURE_SET_APM
  | ID_ATA_FEATURE_SET_APM_ENABLED
  | ID_ATA_FEATURE_SET_APM_CURRENT_VALUE
  | ID_ATA_DOWNLOAD_MICROCODE
  | ID_ATA_SATA
  | ID_ATA_SATA_SIGNAL_RATE_GEN2
  | ID_ATA_SATA_SIGNAL_RATE_GEN1
  | ID_ATA_ROTATION_RATE_RPM
  | ID_WWN
  | ID_WWN_WITH_EXTENSION
  | ID_ATA_CFA
deriving DecidableEq

/-- The `ID_TYPE` values printed by `main` (ata_id.c lines 498-518). -/
inductive DType where
  | disk
  | cd
  | tape
  | optical
  | generic
deriving DecidableEq

/-- The `ID_ATA_FEATURE_SET_SECURITY_LEVEL` values (ata_id.c lines
551-554). -/
inductive SecLevel where
  | maximum
  | high
deriving DecidableEq

/-- One export-mode output line: a numeric `KEY=n` line, the `ID_TYPE`
line, the security-level line, or a string-valued line (model, serial,
firmware revision — their text munging is external to this scope and the
strings are carried opaquely). -/
inductive OutLine where
  | num (k : Key) (v : Nat) : OutLine
  | typ (t : DType) : OutLine
  | seclevel (l : SecLevel) : OutLine
  | strv (k : Key) (s : String) : OutLine
deriving DecidableEq

/-- The `struct hd_driveid` fields read by the export-mode classifier,
after `main` either memcpy'd the fixed-up identify block over it or filled
it via `HDIO_GET_IDENTITY` (field names are those of `linux/hdreg.h`):
`config` is identify word 0, `command_set_1`/`command_set_2` are words
82/83, `cfs_enable_1`/`cfs_enable_2` are words 85/86, `trseuc`/`trsEuc` are
words 89/90, `CurAPMvalues` is word 91, `acoustic` is word 94, `dlf` is
word 128. -/
structure HdId where
  config : Nat
  command_set_1 : Nat
  command_set_2 : Nat
  cfs_enable_1 : Nat
  cfs_enable_2 : Nat
  trseuc : Nat
  trsEuc : Nat
  CurAPMvalues : Nat
  acoustic : Nat
  dlf : Nat
deriving DecidableEq

/-- The ATAPI device-type selector of `main` (ata_id.c lines 500-516):
bits 8-12 of the configuration word select the type. -/
def atapi_type (config : Nat) : DType :=
  match (config >>> 8) &&& 0x1f with
  | 0 => DType.cd
  | 1 => DType.tape
  | 5 => DType.cd
  | 7 => DType.optical
  | _ => DType.generic

/-- The `ID_ATA` and `ID_TYPE` lines (ata_id.c lines 496-518): bit 15 of
the configuration word (tested as `(config >> 8) & 0x80`) distinguishes
ATAPI from ATA; ATA devices are type `disk`. -/
def type_lines (id : HdId) : List OutLine :=
  [OutLine.num Key.ID_ATA 1] ++
  (if (id.config >>> 8) &&& 0x80 ≠ 0 then [OutLine.typ (atapi_type id.config)]
   else [OutLine.typ DType.disk])

/-- The `ID_BUS`/`ID_MODEL`/`ID_MODEL_ENC`/`ID_REVISION`/`ID_SERIAL` lines
(ata_id.c lines 519-527); the serial is present iff its first byte is not
NUL, modelled as the string being nonempty. -/
def string_lines (model model_enc revision serial : String) : List OutLine :=
  [OutLine.strv Key.ID_BUS "ata",
   OutLine.strv Key.ID_MODEL model,
   OutLine.strv Key.ID_MODEL_ENC model_enc,
   OutLine.strv Key.ID_REVISION revision] ++
  (if serial ≠ "" then
     [OutLine.strv Key.ID_SERIAL (model ++ "_" ++ serial),
      OutLine.strv Key.ID_SERIAL_SHORT serial]
   else [OutLine.strv Key.ID_SERIAL model])

/-- The security feature block (ata_id.c lines 546-564), emitted when bit 1
of `command_set_1` is set. -/
def security_block (id : HdId) : List OutLine :=
  [OutLine.num Key.ID_ATA_FEATURE_SET_SECURITY 1,
   OutLine.num Key.ID_ATA_FEATURE_SET_SECURITY_ENABLED
     (if id.cfs_enable_1 &&& (1 <<< 1) ≠ 0 then 1 else 0),
   OutLine.num Key.ID_ATA_FEATURE_SET_SECURITY_ERASE_UNIT_MIN (id.trseuc * 2)] ++
  (if id.cfs_enable_1 &&& (1 <<< 1) ≠ 0 then
     (if id.dlf &&& (1 <<< 8) ≠ 0 then [OutLine.seclevel SecLevel.maximum]
      else [OutLine.seclevel SecLevel.high])
   else []) ++
  (if id.dlf &&& (1 <<< 5) ≠ 0 then
     [OutLine.num Key.ID_ATA_FEATURE_SET_SECURITY_ENHANCED_ERASE_UNIT_MIN
        (id.trsEuc * 2)]
   else []) ++
  (if id.dlf &&& (1 <<< 4) ≠ 0 then
     [OutLine.num Key.ID_ATA_FEATURE_SET_SECURITY_EXPIRE 1] else []) ++
  (if id.dlf &&& (1 <<< 3) ≠ 0 then
     [OutLine.num Key.ID_ATA_FEATURE_SET_SECURITY_FROZEN 1] else []) ++
  (if id.dlf &&& (1 <<< 2) ≠ 0 then
     [OutLine.num Key.ID_ATA_FEATURE_SET_SECURITY_LOCKED 1] else [])

/-- The feature-flag classification table of `main` (ata_id.c lines
529-586): each flag is gated on a bit of a command-set-support word
(`command_set_1` bits 5/10/3/1/0, `command_set_2` bits 9/5/3/0) and most
carry an `_ENABLED` companion read from the paired command-set-enabled word
(`cfs_enable_1`/`cfs_enable_2`) at the same bit position; the
microcode-download flag has no companion line in the C code. -/
def feature_lines (id : HdId) : List OutLine :=
  (if id.command_set_1 &&& (1 <<< 5) ≠ 0 then
     [OutLine.num Key.ID_ATA_WRITE_CACHE 1,
      OutLine.num Key.ID_ATA_WRITE_CACHE_ENABLED
        (if id.cfs_enable_1 &&& (1 <<< 5) ≠ 0 then 1 else 0)]
   else []) ++
  (if id.command_set_1 &&& (1 <<< 10) ≠ 0 then
     [OutLine.num Key.ID_ATA_FEATURE_SET_HPA 1,
      OutLine.num Key.ID_ATA_FEATURE_SET_HPA_ENABLED
        (if id.cfs_enable_1 &&& (1 <<< 10) ≠ 0 then 1 else 0)]
   else []) ++
  (if id.command_set_1 &&& (1 <<< 3) ≠ 0 then
     [OutLine.num Key.ID_ATA_FEATURE_SET_PM 1,
      OutLine.num Key.ID_ATA_FEATURE_SET_PM_ENABLED
        (if id.cfs_enable_1 &&& (1 <<< 3) ≠ 0 then 1 else 0)]
   else []) ++
  (if id.command_set_1 &&& (1 <<< 1) ≠ 0 then security_block id else []) ++
  (if id.command_set_1 &&& (1 <<< 0) ≠ 0 then
     [OutLine.num Key.ID_ATA_FEATURE_SET_SMART 1,
      OutLine.num Key.ID_ATA_FEATURE_SET_SMART_ENABLED
        (if id.cfs_enable_1 &&& (1 <<< 0) ≠ 0 then 1 else 0)]
   else []) ++
  (if id.command_set_2 &&& (1 <<< 9) ≠ 0 then
     [OutLine.num Key.ID_ATA_FEATURE_SET_AAM 1,
      OutLine.num Key.ID_ATA_FEATURE_SET_AAM_ENABLED
        (if id.cfs_enable_2 &&& (1 <<< 9) ≠ 0 then 1 else 0),
      OutLine.num Key.ID_ATA_FEATURE_SET_AAM_VENDOR_RECOMMENDED_VALUE
        (id.acoustic >>> 8),
      OutLine.num Key.ID_ATA_FEATURE_SET_AAM_CURRENT_VALUE
        (id.acoustic &&& 0xff)]
   else []) ++
  (if id.command_set_2 &&& (1 <<< 5) ≠ 0 then
     [OutLine.num Key.ID_ATA_FEATURE_SET_PUIS 1,
      OutLine.num Key.ID_ATA_FEATURE_SET_PUIS_ENABLED
        (if id.cfs_enable_2 &&& (1 <<< 5) ≠ 0 then 1 else 0)]
   else []) ++
  (if id.command_set_2 &&& (1 <<< 3) ≠ 0 then
     [OutLine.num Key.ID_ATA_FEATURE_SET_APM 1,
      OutLine.num Key.ID_ATA_FEATURE_SET_APM_ENABLED
        (if id.cfs_enable_2 &&& (1 <<< 3) ≠ 0 then 1 else 0)] ++
     (if id.cfs_enable_2 &&& (1 <<< 3) ≠ 0 then
        [OutLine.num Key.ID_ATA_FEATURE_SET_APM_CURRENT_VALUE
           (id.CurAPMvalues &&& 0xff)]
      else [])
   else []) ++
  (if id.command_set_2 &&& (1 <<< 0) ≠ 0 then
     [OutLine.num Key.ID_ATA_DOWNLOAD_MICROCODE 1] else [])

/-- The SATA capability lines (ata_id.c lines 595-609): word 76 equal to
`0x0000` or `0xffff` means "not SATA, ignore the word"; otherwise
`ID_ATA_SATA=1` is emitted plus the Gen2/Gen1 signaling-rate lines when
bits 2/1 are set. -/
def sata_lines (word : Nat) : List OutLine :=
  if ¬ (word = 0x0000 ∨ word = 0xffff) then
    [OutLine.num Key.ID_ATA_SATA 1] ++
    (if word &&& (1 <<< 2) ≠ 0 then
       [OutLine.num Key.ID_ATA_SATA_SIGNAL_RATE_GEN2 1] else []) ++
    (if word &&& (1 <<< 1) ≠ 0 then
       [OutLine.num Key.ID_ATA_SATA_SIGNAL_RATE_GEN1 1] else [])
  else []

/-- The nominal media rotation rate lines (ata_id.c lines 611-616): word
217 equal to `0x0001` reports 0 RPM; a value in `[0x0401, 0xfffe]` is
reported verbatim; anything else is omitted. -/
def rotation_lines (word : Nat) : List OutLine :=
  if word = 0x0001 then [OutLine.num Key.ID_ATA_ROTATION_RATE_RPM 0]
  else if 0x0401 ≤ word ∧ word ≤ 0xfffe then
    [OutLine.num Key.ID_ATA_ROTATION_RATE_RPM word]
  else []

/-- The 64-bit WWN assembled by `main` (ata_id.c lines 627-633): word 108
shifted in first, then words 109, 110, 111. -/
def wwn_value (wyde : Nat → Nat) : Nat :=
  ((((wyde 108 <<< 16) ||| wyde 109) <<< 16 ||| wyde 110) <<< 16) ||| wyde 111

/-- The WWN lines (ata_id.c lines 623-637): emitted only when bits 15:12 of
word 108 equal `0x5` (`(word & 0xf000) == 0x5000`); `ID_WWN` and
`ID_WWN_WITH_EXTENSION` both carry the assembled 64-bit value. -/
def wwn_lines (wyde : Nat → Nat) : List OutLine :=
  if wyde 108 &&& 0xf000 = 0x5000 then
    [OutLine.num Key.ID_WWN (wwn_value wyde),
     OutLine.num Key.ID_WWN_WITH_EXTENSION (wwn_value wyde)]
  else []

/-- The CompactFlash line (ata_id.c lines 639-642): word 0 equal to one of
the two CFA signatures, or word 83 masked with `0xc004` equal to `0x4004`. -/
def cfa_lines (wyde : Nat → Nat) : List OutLine :=
  if wyde 0 = 0x848a ∨ wyde 0 = 0x844a ∨ wyde 83 &&& 0xc004 = 0x4004 then
    [OutLine.num Key.ID_ATA_CFA 1]
  else []

/-- The export-mode output of `main` (ata_id.c lines 494-642), as the list
of emitted lines in program order. `id` is the `hd_driveid` view and `wyde`
the host-order 16-bit identify words of the `identify` union (the code
reads words 76, 217, 108-111, 0 and 83 directly from the union). -/
def ata_export (id : HdId) (wyde : Nat → Nat)
    (model model_enc revision serial : String) : List OutLine :=
  type_lines id ++ string_lines model model_enc revision serial ++
  feature_lines id ++ sata_lines (wyde 76) ++ rotation_lines (wyde 217) ++
  wwn_lines wyde ++ cfa_lines wyde

theorem mem_ite {α : Type} (c : Prop) [Decidable c] (l₁ l₂ : List α) (a : α) :
    (a ∈ if c then l₁ else l₂) ↔ (c ∧ a ∈ l₁) ∨ (¬ c ∧ a ∈ l₂) := by
  by_cases h : c <;> simp [h]

theorem mem_ite_nil {α : Type} (c : Prop) [Decidable c] (l : List α) (a : α) :
    (a ∈ if c then l else []) ↔ c ∧ a ∈ l := by
  by_cases h : c <;> simp [h]

theorem rot_mem_export_iff (id : HdId) (wyde : Nat → Nat)
    (model model_enc revision serial : String) (v : Nat) :
    OutLine.num Key.ID_ATA_ROTATION_RATE_RPM v ∈
        ata_export id wyde model model_enc revision serial ↔
      OutLine.num Key.ID_ATA_ROTATION_RATE_RPM v ∈ rotation_lines (wyde 217) := by
  simp [ata_export, type_lines, string_lines, feature_lines, security_block,
    sata_lines, wwn_lines, cfa_lines, mem_ite, mem_ite_nil, List.mem_append]

theorem sata_mem_export_iff (id : HdId) (wyde : Nat → Nat)
    (model model_enc revision serial : String) (k : Key) (v : Nat)
    (hk : k = Key.ID_ATA_SATA ∨ k = Key.ID_ATA_SATA_SIGNAL_RATE_GEN2 ∨
      k = Key.ID_ATA_SATA_SIGNAL_RATE_GEN1) :
    OutLine.num k v ∈ ata_export id wyde model model_enc revision serial ↔
      OutLine.num k v ∈ sata_lines (wyde 76) := by
  rcases hk with rfl | rfl | rfl <;>
    simp [ata_export, type_lines, string_lines, feature_lines, security_block,
      rotation_lines, wwn_lines, cfa_lines, mem_ite, mem_ite_nil,
      List.mem_append]

theorem wwn_mem_export_iff (id : HdId) (wyde : Nat → Nat)
    (model model_enc revision serial : String) (v : Nat) :
    OutLine.num Key.ID_WWN v ∈
        ata_export id wyde model model_enc revision serial ↔
      OutLine.num Key.ID_WWN v ∈ wwn_lines wyde := by
  simp [ata_export, type_lines, string_lines, feature_lines, security_block,
    sata_lines, rotation_lines, cfa_lines, mem_ite, mem_ite_nil,
    List.mem_append]

theorem and_mask_f000 (w : Nat) : w &&& 0xf000 = w / 2 ^ 12 % 2 ^ 4 * 2 ^ 12 := by
  apply Nat.eq_of_testBit_eq
  intro i
  rw [show (0xf000 : Nat) = (2 ^ 4 - 1) <<< 12 from by decide,
    show w / 2 ^ 12 % 2 ^ 4 * 2 ^ 12 = ((w >>> 12) % 2 ^ 4) <<< 12 from by
      rw [Nat.shiftLeft_eq, Nat.shiftRight_eq_div_pow],
    Nat.testBit_and, Nat.testBit_shiftLeft, Nat.testBit_shiftLeft,
    Nat.testBit_two_pow_sub_one, Nat.testBit_mod_two_pow,
    Nat.testBit_shiftRight]
  by_cases h12 : 12 ≤ i
  · rw [show 12 + (i - 12) = i from by omega]
    cases hw : w.testBit i <;> simp [h12, hw]
  · simp [h12]

theorem mask_f000_iff (w : Nat) (hw : w < 2 ^ 16) :
    w &&& 0xf000 = 0x5000 ↔ w / 2 ^ 12 = 5 := by
  rw [and_mask_f000]
  omega

theorem and_one_shift_ne (w k : Nat) :
    w &&& (1 <<< k) ≠ 0 ↔ w.testBit k = true := by
  rw [show (1 : Nat) <<< k = 2 ^ k from by rw [Nat.shiftLeft_eq, Nat.one_mul],
    Nat.and_two_pow]
  cases h : w.testBit k <;> simp

theorem lor16 (a b : Nat) (hb : b < 2 ^ 16) :
    a <<< 16 ||| b = a * 2 ^ 16 + b := by
  rw [Nat.shiftLeft_eq, Nat.mul_comm]
  exact (Nat.mul_add_lt_is_or hb a).symm

theorem wwn_value_eq (wyde : Nat → Nat) (h9 : wyde 109 < 2 ^ 16)
    (h10 : wyde 110 < 2 ^ 16) (h11 : wyde 111 < 2 ^ 16) :
    wwn_value wyde =
      wyde 108 * 2 ^ 48 + wyde 109 * 2 ^ 32 + wyde 110 * 2 ^ 16 + wyde 111 := by
  unfold wwn_value
  rw [lor16 _ _ h9, lor16 _ _ h10, lor16 _ _ h11]
  ring


@[simp] theorem check_nul_bytes_trace (r : CmdResult) (o : List Nat) (p : Bool)
    (t : List Attempt) : (check_nul_bytes r o p t).trace = t := by
  unfold check_nul_bytes
  split <;> rfl

@[simp] theorem check_nul_bytes_isPacket (r : CmdResult) (o : List Nat) (p : Bool)
    (t : List Attempt) : (check_nul_bytes r o p t).isPacket = p := by
  unfold check_nul_bytes
  split <;> rfl

@[simp] theorem check_nul_bytes_out (r : CmdResult) (o : List Nat) (p : Bool)
    (t : List Attempt) : (check_nul_bytes r o p t).out = o := by
  unfold check_nul_bytes
  split <;> rfl

theorem check_nul_bytes_ret (r : CmdResult) (o : List Nat) (p : Bool)
    (t : List Attempt) : (check_nul_bytes r o p t).ret =
      if o.all (fun b => b == 0) then CmdResult.failure eioCode else r := by
  unfold check_nul_bytes
  split <;> simp_all

/-- A descriptor-format sense buffer accepted by both IDENTIFY commands. -/
def sense_desc : List Nat :=
  [0x72, 0, 0, 0, 0, 0, 0, 0, 0x9, 0x0c] ++ List.replicate 22 0

/-- A fixed-format sense buffer accepted only by `disk_identify_command`. -/
def sense_fixed : List Nat :=
  [0x70] ++ List.replicate 11 0 ++ [0x00, 0x1d] ++ List.replicate 18 0

/-- A submission environment whose v4 ioctl succeeds with descriptor-format
sense. -/
def sgOkEnv : SgEnv := ⟨0, 0, 0, 0, sense_desc⟩

/-- A submission environment whose v4 ioctl succeeds with fixed-format
sense. -/
def sgFixedEnv : SgEnv := ⟨0, 0, 0, 0, sense_fixed⟩

/-- A probe environment for an ATAPI device (INQUIRY peripheral type 5). -/
def probeEnvPacket : ProbeEnv :=
  ⟨CmdResult.success, 0x05 :: List.replicate 35 0, List.replicate 36 0,
   sgOkEnv, List.replicate 512 1, sgOkEnv, List.replicate 512 1⟩

/-- A probe environment for an unrecognized peripheral type (2). -/
def probeEnvReject : ProbeEnv :=
  ⟨CmdResult.success, 0x02 :: List.replicate 35 0, List.replicate 36 0,
   sgOkEnv, List.replicate 512 1, sgOkEnv, List.replicate 512 1⟩

/-- A probe environment where IDENTIFY DEVICE succeeds but returns an
all-zero block. -/
def probeEnvZeroAta : ProbeEnv :=
  ⟨CmdResult.success, 0x00 :: List.replicate 35 0, List.replicate 36 0,
   sgOkEnv, List.replicate 512 0, sgOkEnv, List.replicate 512 0⟩

/-- C1: for every INQUIRY response, the probe sequencer routes on the low 5
bits of the first response byte: peripheral type `0x05` always selects the
IDENTIFY PACKET DEVICE command, types `0x00` and `0x14` select the IDENTIFY
DEVICE command, and any other type is a fatal (`EIO`) outcome for the
pass-through protocol path, with no IDENTIFY command issued, which makes
`main` fall through to the legacy `HDIO_GET_IDENTITY` fallback. -/
theorem peripheral_type_routing (env : ProbeEnv)
    (hinq : env.inquiryResult = CmdResult.success) :
    (peripheral_device_type env.inquiryData = 0x05 →
      Attempt.identifyPacket (List.replicate 512 0) ∈ (disk_identify env).trace ∧
      (disk_identify env).isPacket = true) ∧
    (peripheral_device_type env.inquiryData = 0x00 ∨
        peripheral_device_type env.inquiryData = 0x14 →
      Attempt.identifyAta (List.replicate 512 0) ∈ (disk_identify env).trace) ∧
    (peripheral_device_type env.inquiryData ≠ 0x05 →
      peripheral_device_type env.inquiryData ≠ 0x00 →
      peripheral_device_type env.inquiryData ≠ 0x14 →
      (disk_identify env).ret = CmdResult.failure eioCode ∧
      identifyIssued (disk_identify env).trace = false ∧
      main_id_source env = IdSource.legacy) := by
  refine ⟨?_, ?_, ?_⟩
  · intro h5
    simp only [disk_identify, hinq, h5, if_pos, check_nul_bytes_trace,
      check_nul_bytes_isPacket, List.mem_append, List.mem_singleton]
    simp
  · intro hset
    have h5 : ¬ peripheral_device_type env.inquiryData = 0x05 := by omega
    have hno : ¬ ¬ (peripheral_device_type env.inquiryData = 0x00 ∨
        peripheral_device_type env.inquiryData = 0x14) := by tauto
    simp only [disk_identify, hinq, if_neg h5, if_neg hno]
    cases disk_identify_command env.ataEnv <;>
      simp [check_nul_bytes_trace]
  · intro h5 h0 h14
    have hno : ¬ (peripheral_device_type env.inquiryData = 0x00 ∨
        peripheral_device_type env.inquiryData = 0x14) := by tauto
    simp only [disk_identify, main_id_source, hinq, if_neg h5, if_pos hno]
    simp [identifyIssued, disk_identify, hinq, if_neg h5, if_pos hno]

/-- Witness for C1 at peripheral types 5 and 2. -/
theorem peripheral_type_routing_witness :
    (Attempt.identifyPacket (List.replicate 512 0) ∈
        (disk_identify probeEnvPacket).trace ∧
      (disk_identify probeEnvPacket).isPacket = true) ∧
    ((disk_identify probeEnvReject).ret = CmdResult.failure eioCode ∧
      identifyIssued (disk_identify probeEnvReject).trace = false ∧
      main_id_source probeEnvReject = IdSource.legacy) :=
  ⟨(peripheral_type_routing probeEnvPacket rfl).1 (by decide),
   (peripheral_type_routing probeEnvReject rfl).2.2 (by decide) (by decide)
     (by decide)⟩

/-- C2: for every probe in which an IDENTIFY command is issued, if the
resulting 512-byte identify block consists entirely of zero bytes, then
`disk_identify` returns a failure outcome — even when the command submission
itself reported success. -/
theorem all_zero_identify_failure (env : ProbeEnv)
    (hissued : identifyIssued (disk_identify env).trace = true)
    (hzero : (disk_identify env).out.all (fun b => b == 0) = true) :
    ∃ e, (disk_identify env).ret = CmdResult.failure e := by
  cases hres : env.inquiryResult with
  | failure e =>
    rw [disk_identify] at hissued
    simp only [hres, identifyIssued] at hissued
    simp [Attempt.rec] at hissued
  | success =>
    by_cases h5 : peripheral_device_type env.inquiryData = 0x05
    · simp only [disk_identify, hres, h5, if_pos] at hzero ⊢
      rw [check_nul_bytes_out] at hzero
      rw [check_nul_bytes_ret, if_pos hzero]
      exact ⟨eioCode, rfl⟩
    · by_cases hset : peripheral_device_type env.inquiryData = 0x00 ∨
          peripheral_device_type env.inquiryData = 0x14
      · have hno : ¬ ¬ (peripheral_device_type env.inquiryData = 0x00 ∨
            peripheral_device_type env.inquiryData = 0x14) := by tauto
        simp only [disk_identify, hres, if_neg h5, if_neg hno] at hzero ⊢
        cases hcmd : disk_identify_command env.ataEnv with
        | failure e =>
          simp only [hcmd] at hzero ⊢
          exact ⟨e, rfl⟩
        | success =>
          simp only [hcmd] at hzero ⊢
          rw [check_nul_bytes_out] at hzero
          rw [check_nul_bytes_ret, if_pos hzero]
          exact ⟨eioCode, rfl⟩
      · simp only [disk_identify, hres, if_neg h5, if_pos hset] at hissued
        simp [identifyIssued] at hissued

/-- Witness for C2: IDENTIFY DEVICE succeeds but the block is all zero. -/
theorem all_zero_identify_failure_witness :
    ∃ e, (disk_identify probeEnvZeroAta).ret = CmdResult.failure e :=
  all_zero_identify_failure probeEnvZeroAta (by decide) (by decide)

/-- C3: for every IDENTIFY-class command submission, success is declared
only if the returned sense data matches an expected encoding even when the
ioctl reported success: for IDENTIFY DEVICE either descriptor-format sense
(`sense[0]==0x72`, `sense[8]==0x09`, `sense[9]==0x0c`) or fixed-format sense
(`sense[0]==0x70`, `sense[12]==0x00`, `sense[13]==0x1d`) is accepted; for
IDENTIFY PACKET DEVICE only the descriptor-format encoding is accepted;
otherwise the operation fails with an `EIO` I/O error. Submission counts as
successful when the v4 ioctl returned 0 or failed with `EINVAL` and the v3
ioctl returned 0. -/
theorem identify_sense_validation (env : SgEnv) :
    (disk_identify_command env = CmdResult.success ↔
      ((env.v4Ret = 0 ∨ (env.v4Ret ≠ 0 ∧ env.v4Errno = einvalCode ∧
          env.v3Ret = 0)) ∧ identify_sense_ok env.sense = true)) ∧
    (disk_identify_packet_device_command env = CmdResult.success ↔
      ((env.v4Ret = 0 ∨ (env.v4Ret ≠ 0 ∧ env.v4Errno = einvalCode ∧
          env.v3Ret = 0)) ∧ packet_sense_ok env.sense = true)) ∧
    ((env.v4Ret = 0 ∨ (env.v4Ret ≠ 0 ∧ env.v4Errno = einvalCode ∧
        env.v3Ret = 0)) → identify_sense_ok env.sense = false →
      disk_identify_command env = CmdResult.failure eioCode) ∧
    ((env.v4Ret = 0 ∨ (env.v4Ret ≠ 0 ∧ env.v4Errno = einvalCode ∧
        env.v3Ret = 0)) → packet_sense_ok env.sense = false →
      disk_identify_packet_device_command env = CmdResult.failure eioCode) ∧
    (identify_sense_ok env.sense = true ↔
      ((env.sense.getD 0 0 = 0x72 ∧ env.sense.getD 8 0 = 0x9 ∧
          env.sense.getD 9 0 = 0x0c) ∨
       (env.sense.getD 0 0 = 0x70 ∧ env.sense.getD 12 0 = 0x00 ∧
          env.sense.getD 13 0 = 0x1d))) ∧
    (packet_sense_ok env.sense = true ↔
      (env.sense.getD 0 0 = 0x72 ∧ env.sense.getD 8 0 = 0x9 ∧
        env.sense.getD 9 0 = 0x0c)) := by
  refine ⟨?_, ?_, ?_, ?_, ?_, ?_⟩
  · unfold disk_identify_command
    split_ifs with h1 h2 h3 h4 h5 <;> simp_all
  · unfold disk_identify_packet_device_command
    split_ifs with h1 h2 h3 h4 h5 <;> simp_all
  · intro hsub hbad
    unfold disk_identify_command
    split_ifs with h1 h2 h3 h4 h5 <;> simp_all
  · intro hsub hbad
    unfold disk_identify_packet_device_command
    split_ifs with h1 h2 h3 h4 h5 <;> simp_all
  · simp [identify_sense_ok]
    tauto
  · simp [packet_sense_ok]
    tauto

/-- Witness for C3: a v4-successful IDENTIFY DEVICE with descriptor-format
sense succeeds, and a v4-successful IDENTIFY PACKET DEVICE seeing only
fixed-format sense fails with `EIO`. -/
theorem identify_sense_validation_witness :
    disk_identify_command sgOkEnv = CmdResult.success ∧
    disk_identify_packet_device_command sgFixedEnv = CmdResult.failure eioCode :=
  ⟨(identify_sense_validation sgOkEnv).1.mpr ⟨Or.inl rfl, by decide⟩,
   (identify_sense_validation sgFixedEnv).2.2.2.1 (Or.inl rfl) (by decide)⟩

/-- A probe environment whose uninitialized `inquiry_buf` stack contents are
not all zero. -/
def probeEnvStale : ProbeEnv :=
  ⟨CmdResult.failure 5, List.replicate 36 0, 7 :: List.replicate 35 0,
   sgOkEnv, List.replicate 512 1, sgOkEnv, List.replicate 512 1⟩

/-- Counterexample to C4 as stated: the 36-byte INQUIRY response buffer is
passed to its transport attempt without zero-initialization — with nonzero
stale stack contents, the buffer visible to the INQUIRY attempt is not
all-zero. -/
theorem inquiry_buffer_not_zeroed :
    (disk_identify probeEnvStale).trace =
      [Attempt.inquiry (7 :: List.replicate 35 0)] ∧
    ((7 :: List.replicate 35 0).all (fun b => b == 0)) = false := by
  decide

/-- C4 (amended): the 512-byte identify transfer buffer is zero-initialized
before each IDENTIFY transport attempt, but the 36-byte INQUIRY response
buffer is handed to the INQUIRY attempt with whatever stale stack contents
it already held. -/
theorem transfer_buffer_zeroing (env : ProbeEnv) (b : List Nat) :
    (Attempt.identifyAta b ∈ (disk_identify env).trace →
      b = List.replicate 512 0) ∧
    (Attempt.identifyPacket b ∈ (disk_identify env).trace →
      b = List.replicate 512 0) ∧
    (Attempt.inquiry b ∈ (disk_identify env).trace →
      b = env.staleInquiry) := by
  cases hres : env.inquiryResult with
  | failure e => simp [disk_identify, hres]
  | success =>
    by_cases h5 : peripheral_device_type env.inquiryData = 0x05
    · simp [disk_identify, hres, h5]
    · by_cases hset : peripheral_device_type env.inquiryData = 0x00 ∨
          peripheral_device_type env.inquiryData = 0x14
      · have hno : ¬ ¬ (peripheral_device_type env.inquiryData = 0x00 ∨
            peripheral_device_type env.inquiryData = 0x14) := by tauto
        simp only [disk_identify, hres, if_neg h5, if_neg hno]
        cases disk_identify_command env.ataEnv <;> simp
      · simp only [disk_identify, hres, if_neg h5, if_pos hset]
        simp

/-- Witness for C4 (amended): the INQUIRY attempt of `probeEnvStale` sees
exactly the stale stack contents. -/
theorem transfer_buffer_zeroing_witness :
    (7 : Nat) :: List.replicate 35 0 = probeEnvStale.staleInquiry :=
  (transfer_buffer_zeroing probeEnvStale (7 :: List.replicate 35 0)).2.2
    (by decide)

/-- C8: the ATA string word-swap is an involution. The first conjunct ties
`wordSwapBytes` to the program: on an even byte count `2 * k`, the
`disk_identify_get_string` loop terminates and emits exactly the byte-pair
swap of the source range. The second conjunct is the involution: applying
the swap twice to any string field of even byte length returns the original
byte sequence. -/
theorem ata_string_swap_involution :
    (∀ (identify : Nat → Nat) (off k : Nat), 2 * k < 2 ^ 64 →
      getStringRun identify (k + 1) off (2 * k) [] =
        some (wordSwapBytes (rangeBytes identify off k))) ∧
    (∀ l : List Nat, l.length % 2 = 0 →
      wordSwapBytes (wordSwapBytes l) = l) := by
  constructor
  · intro identify off k hk
    simpa using getStringRun_even identify k off [] hk
  · intro l _
    exact wordSwapBytes_involutive l

/-- Witness for C8 on a 4-byte field. -/
theorem ata_string_swap_involution_witness :
    wordSwapBytes (wordSwapBytes [1, 2, 3, 4]) = [1, 2, 3, 4] ∧
    getStringRun (fun i => i) (2 + 1) 0 (2 * 2) [] =
      some (wordSwapBytes (rangeBytes (fun i => i) 0 2)) :=
  ⟨ata_string_swap_involution.2 [1, 2, 3, 4] (by decide),
   ata_string_swap_involution.1 (fun i => i) 0 2 (by decide)⟩

/-- C10: `disk_identify_get_string` terminates and writes exactly
`dest_len` bytes for every even `dest_len`; for every odd `dest_len` the
`size_t` counter wraps past zero and the loop never exits (the model
returns `none` for every iteration bound, so the function does not
terminate within the destination's bounds); and all in-program call sites
pass only the even lengths 20, 8 and 40. -/
theorem get_string_termination :
    (∀ (identify : Nat → Nat) (off dest_len : Nat), dest_len % 2 = 0 →
        dest_len < 2 ^ 64 →
      ∃ out, getStringRun identify (dest_len / 2 + 1) off dest_len [] =
          some out ∧ out.length = dest_len) ∧
    (∀ (identify : Nat → Nat) (fuel off dest_len : Nat) (acc : List Nat),
        dest_len % 2 = 1 →
      getStringRun identify fuel off dest_len acc = none) ∧
    (main_fixup_string_calls = [(10, 20), (23, 8), (27, 40)] ∧
      ∀ p ∈ main_fixup_string_calls, p.2 % 2 = 0) := by
  refine ⟨?_, ?_, by decide, by decide⟩
  · intro identify off dlen he hlt
    obtain ⟨k, rfl⟩ : ∃ k, dlen = 2 * k := ⟨dlen / 2, by omega⟩
    have h := getStringRun_even identify k off [] hlt
    rw [List.nil_append] at h
    rw [show 2 * k / 2 + 1 = k + 1 from by omega]
    exact ⟨_, h, by rw [wordSwapBytes_length, rangeBytes_length identify k off]⟩
  · intro identify fuel off dlen acc h
    exact getStringRun_odd identify fuel off dlen acc h

/-- Witness for C10 at `dest_len = 20` (the serial call site) and at the
odd length 3. -/
theorem get_string_termination_witness :
    (∃ out, getStringRun (fun _ => 0) (20 / 2 + 1) 10 20 [] = some out ∧
      out.length = 20) ∧
    getStringRun (fun _ => 0) 5 0 3 [] = none :=
  ⟨get_string_termination.1 (fun _ => 0) 10 20 (by decide) (by decide),
   get_string_termination.2.1 (fun _ => 0) 5 0 3 [] (by decide)⟩

/-- The all-zero `hd_driveid` view, used as a neutral input in witnesses. -/
def idZero : HdId := ⟨0, 0, 0, 0, 0, 0, 0, 0, 0, 0⟩

/-- C6: the rotation-rate classification of identify word 217 maps `0x0001`
to a reported rate of 0 RPM, maps every value in `[0x0401, 0xfffe]` to that
value verbatim as RPM, and omits the rotation-rate output for every other
value. -/
theorem rotation_rate_mapping (id : HdId) (wyde : Nat → Nat)
    (model model_enc revision serial : String) :
    (wyde 217 = 0x0001 →
      OutLine.num Key.ID_ATA_ROTATION_RATE_RPM 0 ∈
        ata_export id wyde model model_enc revision serial) ∧
    (0x0401 ≤ wyde 217 → wyde 217 ≤ 0xfffe →
      OutLine.num Key.ID_ATA_ROTATION_RATE_RPM (wyde 217) ∈
        ata_export id wyde model model_enc revision serial) ∧
    (wyde 217 ≠ 0x0001 → ¬ (0x0401 ≤ wyde 217 ∧ wyde 217 ≤ 0xfffe) →
      ∀ v, OutLine.num Key.ID_ATA_ROTATION_RATE_RPM v ∉
        ata_export id wyde model model_enc revision serial) := by
  refine ⟨?_, ?_, ?_⟩
  · intro h1
    rw [rot_mem_export_iff]
    simp [rotation_lines, h1]
  · intro hlo hhi
    have h1 : wyde 217 ≠ 0x0001 := by omega
    rw [rot_mem_export_iff]
    simp [rotation_lines, h1, hlo, hhi]
  · intro h1 hr v
    rw [rot_mem_export_iff]
    simp [rotation_lines, h1, hr]

/-- A word array whose rotation-rate word is 1 (non-rotating). -/
def wydeRot1 : Nat → Nat := fun i => if i = 217 then 1 else 0

/-- A word array whose rotation-rate word is the reserved value 0x0400. -/
def wydeRot400 : Nat → Nat := fun i => if i = 217 then 0x0400 else 0

/-- Witness for C6 at rotation words 1 (0 RPM) and 0x0400 (omitted). -/
theorem rotation_rate_mapping_witness :
    OutLine.num Key.ID_ATA_ROTATION_RATE_RPM 0 ∈
      ata_export idZero wydeRot1 "" "" "" "" ∧
    OutLine.num Key.ID_ATA_ROTATION_RATE_RPM 1024 ∉
      ata_export idZero wydeRot400 "" "" "" "" :=
  ⟨(rotation_rate_mapping idZero wydeRot1 "" "" "" "").1 (by decide),
   (rotation_rate_mapping idZero wydeRot400 "" "" "" "").2.2 (by decide)
     (by decide) 1024⟩

/-- C9: if identify word 76 equals `0x0000` or `0xffff`, no SATA-related
output key is emitted; otherwise `ID_ATA_SATA=1` is emitted and the Gen2
and Gen1 signal-rate keys are emitted exactly when bits 2 and 1 of the
word, respectively, are set. -/
theorem sata_word_gating (id : HdId) (wyde : Nat → Nat)
    (model model_enc revision serial : String) :
    (wyde 76 = 0x0000 ∨ wyde 76 = 0xffff →
      ∀ v, OutLine.num Key.ID_ATA_SATA v ∉
          ata_export id wyde model model_enc revision serial ∧
        OutLine.num Key.ID_ATA_SATA_SIGNAL_RATE_GEN2 v ∉
          ata_export id wyde model model_enc revision serial ∧
        OutLine.num Key.ID_ATA_SATA_SIGNAL_RATE_GEN1 v ∉
          ata_export id wyde model model_enc revision serial) ∧
    (¬ (wyde 76 = 0x0000 ∨ wyde 76 = 0xffff) →
      OutLine.num Key.ID_ATA_SATA 1 ∈
        ata_export id wyde model model_enc revision serial ∧
      (OutLine.num Key.ID_ATA_SATA_SIGNAL_RATE_GEN2 1 ∈
          ata_export id wyde model model_enc revision serial ↔
        (wyde 76).testBit 2 = true) ∧
      (OutLine.num Key.ID_ATA_SATA_SIGNAL_RATE_GEN1 1 ∈
          ata_export id wyde model model_enc revision serial ↔
        (wyde 76).testBit 1 = true)) := by
  constructor
  · intro h v
    refine ⟨?_, ?_, ?_⟩
    · rw [sata_mem_export_iff id wyde model model_enc revision serial _ v
        (Or.inl rfl)]
      simp [sata_lines, h]
    · rw [sata_mem_export_iff id wyde model model_enc revision serial _ v
        (Or.inr (Or.inl rfl))]
      simp [sata_lines, h]
    · rw [sata_mem_export_iff id wyde model model_enc revision serial _ v
        (Or.inr (Or.inr rfl))]
      simp [sata_lines, h]
  · intro h
    refine ⟨?_, ?_, ?_⟩
    · rw [sata_mem_export_iff id wyde model model_enc revision serial _ 1
        (Or.inl rfl)]
      simp [sata_lines, h, mem_ite_nil]
    · rw [sata_mem_export_iff id wyde model model_enc revision serial _ 1
        (Or.inr (Or.inl rfl)), ← and_one_shift_ne]
      simp [sata_lines, h, mem_ite_nil]
    · rw [sata_mem_export_iff id wyde model model_enc revision serial _ 1
        (Or.inr (Or.inr rfl)), ← and_one_shift_ne]
      simp [sata_lines, h, mem_ite_nil]

/-- A word array whose SATA word has the Gen1 and Gen2 bits set. -/
def wydeSata6 : Nat → Nat := fun i => if i = 76 then 6 else 0

/-- The all-zero word array. -/
def wydeZero : Nat → Nat := fun _ => 0

/-- Witness for C9: SATA word 6 emits `ID_ATA_SATA=1`; SATA word 0
suppresses it. -/
theorem sata_word_gating_witness :
    OutLine.num Key.ID_ATA_SATA 1 ∈ ata_export idZero wydeSata6 "" "" "" "" ∧
    OutLine.num Key.ID_ATA_SATA 1 ∉ ata_export idZero wydeZero "" "" "" "" :=
  ⟨((sata_word_gating idZero wydeSata6 "" "" "" "").2 (by decide)).1,
   ((sata_word_gating idZero wydeZero "" "" "" "").1 (Or.inl (by decide)) 1).1⟩

/-- C7: the WWN is reported if and only if the top 4 bits of identify word
108 equal `0x5`, and its value is the 64-bit concatenation of words
108-111 with the most-significant word first (both the `ID_WWN` and the
`ID_WWN_WITH_EXTENSION` lines carry it). -/
theorem wwn_extraction (id : HdId) (wyde : Nat → Nat)
    (h8 : wyde 108 < 2 ^ 16) (h9 : wyde 109 < 2 ^ 16)
    (h10 : wyde 110 < 2 ^ 16) (h11 : wyde 111 < 2 ^ 16)
    (model model_enc revision serial : String) :
    ((∃ v, OutLine.num Key.ID_WWN v ∈
        ata_export id wyde model model_enc revision serial) ↔
      wyde 108 / 2 ^ 12 = 5) ∧
    (wyde 108 / 2 ^ 12 = 5 →
      OutLine.num Key.ID_WWN
          (wyde 108 * 2 ^ 48 + wyde 109 * 2 ^ 32 + wyde 110 * 2 ^ 16 +
            wyde 111) ∈
        ata_export id wyde model model_enc revision serial ∧
      OutLine.num Key.ID_WWN_WITH_EXTENSION
          (wyde 108 * 2 ^ 48 + wyde 109 * 2 ^ 32 + wyde 110 * 2 ^ 16 +
            wyde 111) ∈
        ata_export id wyde model model_enc revision serial) := by
  have hval := wwn_value_eq wyde h9 h10 h11
  constructor
  · rw [← mask_f000_iff _ h8]
    constructor
    · rintro ⟨v, hv⟩
      rw [wwn_mem_export_iff] at hv
      by_cases hc : wyde 108 &&& 0xf000 = 0x5000
      · exact hc
      · simp [wwn_lines, hc] at hv
    · intro hc
      refine ⟨wwn_value wyde, ?_⟩
      rw [wwn_mem_export_iff]
      simp [wwn_lines, hc]
  · intro htop
    have hc : wyde 108 &&& 0xf000 = 0x5000 := (mask_f000_iff _ h8).mpr htop
    rw [← hval]
    constructor <;> simp [ata_export, wwn_lines, hc]

/-- The word array of the C7 example: words 108-111 are
`(0x5001, 0x2233, 0x4455, 0x6677)`. -/
def wydeWwn : Nat → Nat := fun i =>
  if i = 108 then 0x5001
  else if i = 109 then 0x2233
  else if i = 110 then 0x4455
  else if i = 111 then 0x6677
  else 0

/-- Witness for C7: the example words yield WWN `0x5001223344556677`. -/
theorem wwn_extraction_witness :
    OutLine.num Key.ID_WWN 0x5001223344556677 ∈
      ata_export idZero wydeWwn "" "" "" "" := by
  have h := ((wwn_extraction idZero wydeWwn (by decide) (by decide) (by decide)
    (by decide) "" "" "" "").2 (by decide)).1
  exact (by decide : wydeWwn 108 * 2 ^ 48 + wydeWwn 109 * 2 ^ 32 +
    wydeWwn 110 * 2 ^ 16 + wydeWwn 111 = 0x5001223344556677) ▸ h

/-- An `hd_driveid` view with only the microcode-download support bit set
(`command_set_2` bit 0) and its enable bit clear. -/
def idMc : HdId := ⟨0, 0, 1, 0, 0, 0, 0, 0, 0, 0⟩

/-- The same view with the paired enable bit (`cfs_enable_2` bit 0) set. -/
def idMcEnabled : HdId := ⟨0, 0, 1, 0, 1, 0, 0, 0, 0, 0⟩

/-- Counterexample to C5 as stated: with the microcode-download support bit
set, the export output is identical whether the paired enable bit
(`cfs_enable_2` bit 0) is clear or set — so the microcode-download flag is
not reported together with an enabled state read from the paired
command-set-enabled word. -/
theorem microcode_enabled_not_reported :
    idMc.command_set_2 &&& (1 <<< 0) ≠ 0 ∧
    idMc.cfs_enable_2 &&& (1 <<< 0) = 0 ∧
    idMcEnabled.cfs_enable_2 &&& (1 <<< 0) ≠ 0 ∧
    idMcEnabled = { idMc with cfs_enable_2 := 1 } ∧
    ata_export idMc wydeZero "" "" "" "" =
      ata_export idMcEnabled wydeZero "" "" "" "" := by
  decide

/-- C5 (amended): for each feature flag of the classification table other
than microcode download (write cache bit 5, HPA bit 10, power-management
bit 3, security bit 1, SMART bit 0 of `command_set_1`; AAM bit 9, PUIS bit
5, APM bit 3 of `command_set_2`), if the support bit is set then the flag
is reported together with its enabled state read from the paired
command-set-enabled word at the identical bit position; the
microcode-download flag (bit 0 of `command_set_2`) is reported alone, and
the export output depends on `cfs_enable_2` only through bits 9, 5 and 3 —
in particular never through the bit position paired with microcode
download. -/
theorem feature_flag_table (id : HdId) (wyde : Nat → Nat)
    (model model_enc revision serial : String) :
    (id.command_set_1 &&& (1 <<< 5) ≠ 0 →
      OutLine.num Key.ID_ATA_WRITE_CACHE 1 ∈
        ata_export id wyde model model_enc revision serial ∧
      OutLine.num Key.ID_ATA_WRITE_CACHE_ENABLED
          (if id.cfs_enable_1 &&& (1 <<< 5) ≠ 0 then 1 else 0) ∈
        ata_export id wyde model model_enc revision serial) ∧
    (id.command_set_1 &&& (1 <<< 10) ≠ 0 →
      OutLine.num Key.ID_ATA_FEATURE_SET_HPA 1 ∈
        ata_export id wyde model model_enc revision serial ∧
      OutLine.num Key.ID_ATA_FEATURE_SET_HPA_ENABLED
          (if id.cfs_enable_1 &&& (1 <<< 10) ≠ 0 then 1 else 0) ∈
        ata_export id wyde model model_enc revision serial) ∧
    (id.command_set_1 &&& (1 <<< 3) ≠ 0 →
      OutLine.num Key.ID_ATA_FEATURE_SET_PM 1 ∈
        ata_export id wyde model model_enc revision serial ∧
      OutLine.num Key.ID_ATA_FEATURE_SET_PM_ENABLED
          (if id.cfs_enable_1 &&& (1 <<< 3) ≠ 0 then 1 else 0) ∈
        ata_export id wyde model model_enc revision serial) ∧
    (id.command_set_1 &&& (1 <<< 1) ≠ 0 →
      OutLine.num Key.ID_ATA_FEATURE_SET_SECURITY 1 ∈
        ata_export id wyde model model_enc revision serial ∧
      OutLine.num Key.ID_ATA_FEATURE_SET_SECURITY_ENABLED
          (if id.cfs_enable_1 &&& (1 <<< 1) ≠ 0 then 1 else 0) ∈
        ata_export id wyde model model_enc revision serial) ∧
    (id.command_set_1 &&& (1 <<< 0) ≠ 0 →
      OutLine.num Key.ID_ATA_FEATURE_SET_SMART 1 ∈
        ata_export id wyde model model_enc revision serial ∧
      OutLine.num Key.ID_ATA_FEATURE_SET_SMART_ENABLED
          (if id.cfs_enable_1 &&& (1 <<< 0) ≠ 0 then 1 else 0) ∈
        ata_export id wyde model model_enc revision serial) ∧
    (id.command_set_2 &&& (1 <<< 9) ≠ 0 →
      OutLine.num Key.ID_ATA_FEATURE_SET_AAM 1 ∈
        ata_export id wyde model model_enc revision serial ∧
      OutLine.num Key.ID_ATA_FEATURE_SET_AAM_ENABLED
          (if id.cfs_enable_2 &&& (1 <<< 9) ≠ 0 then 1 else 0) ∈
        ata_export id wyde model model_enc revision serial) ∧
    (id.command_set_2 &&& (1 <<< 5) ≠ 0 →
      OutLine.num Key.ID_ATA_FEATURE_SET_PUIS 1 ∈
        ata_export id wyde model model_enc revision serial ∧
      OutLine.num Key.ID_ATA_FEATURE_SET_PUIS_ENABLED
          (if id.cfs_enable_2 &&& (1 <<< 5) ≠ 0 then 1 else 0) ∈
        ata_export id wyde model model_enc revision serial) ∧
    (id.command_set_2 &&& (1 <<< 3) ≠ 0 →
      OutLine.num Key.ID_ATA_FEATURE_SET_APM 1 ∈
        ata_export id wyde model model_enc revision serial ∧
      OutLine.num Key.ID_ATA_FEATURE_SET_APM_ENABLED
          (if id.cfs_enable_2 &&& (1 <<< 3) ≠ 0 then 1 else 0) ∈
        ata_export id wyde model model_enc revision serial) ∧
    (id.command_set_2 &&& (1 <<< 0) ≠ 0 →
      OutLine.num Key.ID_ATA_DOWNLOAD_MICROCODE 1 ∈
        ata_export id wyde model model_enc revision serial) ∧
    (∀ e e', e.testBit 9 = e'.testBit 9 → e.testBit 5 = e'.testBit 5 →
        e.testBit 3 = e'.testBit 3 →
      ata_export { id with cfs_enable_2 := e } wyde model model_enc revision
          serial =
        ata_export { id with cfs_enable_2 := e' } wyde model model_enc
          revision serial) := by
  refine ⟨?_, ?_, ?_, ?_, ?_, ?_, ?_, ?_, ?_, ?_⟩
  · intro h
    simp at h
    constructor <;> simp [ata_export, feature_lines, mem_ite_nil, h]
  · intro h
    simp at h
    constructor <;> simp [ata_export, feature_lines, mem_ite_nil, h]
  · intro h
    simp at h
    constructor <;> simp [ata_export, feature_lines, mem_ite_nil, h]
  · intro h
    simp at h
    constructor <;>
      simp [ata_export, feature_lines, security_block, mem_ite_nil, h]
  · intro h
    simp at h
    constructor <;> simp [ata_export, feature_lines, mem_ite_nil, h]
  · intro h
    simp at h
    constructor <;> simp [ata_export, feature_lines, mem_ite_nil, h]
  · intro h
    simp at h
    constructor <;> simp [ata_export, feature_lines, mem_ite_nil, h]
  · intro h
    simp at h
    constructor <;> simp [ata_export, feature_lines, mem_ite_nil, h]
  · intro h
    simp at h
    simp [ata_export, feature_lines, mem_ite_nil, h]
  · intro e e' h9 h5 h3
    simp only [ata_export, type_lines, feature_lines, security_block,
      and_one_shift_ne]
    rw [h9, h5, h3]

/-- Witness for C5 (amended): write cache supported and enabled, microcode
download supported. -/
theorem feature_flag_table_witness :
    OutLine.num Key.ID_ATA_WRITE_CACHE 1 ∈
      ata_export ⟨0, 32, 1, 32, 0, 0, 0, 0, 0, 0⟩ wydeZero "" "" "" "" ∧
    OutLine.num Key.ID_ATA_DOWNLOAD_MICROCODE 1 ∈
      ata_export ⟨0, 32, 1, 32, 0, 0, 0, 0, 0, 0⟩ wydeZero "" "" "" "" :=
  ⟨((feature_flag_table ⟨0, 32, 1, 32, 0, 0, 0, 0, 0, 0⟩ wydeZero
      "" "" "" "").1 (by decide)).1,
   (feature_flag_table ⟨0, 32, 1, 32, 0, 0, 0, 0, 0, 0⟩ wydeZero
      "" "" "" "").2.2.2.2.2.2.2.2.1 (by decide)⟩
